import Mathlib

/-!
# Verification of NVDA `source/systemUtils.py`

A shallow embedding of the six functions of `systemUtils.py`
(`openUserConfigurationDirectory`, `hasUiAccess`, `execElevated`,
`terminateRunningNVDA`, `forceTerminateProcess`,
`getRunningProcessInstances`).

Each function is embedded as a pure Lean function from an explicit
environment (the outcomes of the opaque OS / collaborator calls the
Python code makes) to a result of type `Except PyErr α` (a raised
Python exception or a returned value) paired with a trace of the
observable effects the call performs, in order.  Handles are natural
numbers; a null handle is `0`.
-/

namespace SystemUtils

/-- A Python exception as relevant to this module: an OS-level error
(`ctypes.WinError` / a raising `winKernel`/`shellapi` wrapper), a COM
communication error from the WMI query, a `ValueError` with its message,
or the `ConfigurationError` the specification speaks of. -/
inductive PyErr where
  | winError
  | comError
  | valueError (msg : String)
  | configurationError (msg : String)
deriving DecidableEq, Repr

/-- A Python value as relevant to `openUserConfigurationDirectory`:
`None` or a string.  `falsy` mirrors Python truthiness (`not path`). -/
inductive PyVal where
  | pyNone
  | str (s : String)
deriving DecidableEq, Repr

/-- Python truthiness test `not path` for the values of `PyVal`. -/
def PyVal.falsy : PyVal → Bool
  | .pyNone => true
  | .str s => s = ""

/-- Observable effects of the functions of `systemUtils.py`, in the
order they are performed. `hOpen h` records a successful acquisition of
OS handle `h`; `hClose h` a `CloseHandle`-style release of `h`. -/
inductive Event where
  | hOpen (h : Nat)
  | hClose (h : Nat)
  | postQuit (window : Nat)
  | terminateCall (h : Nat) (exitCode : Nat)
  | waitCall (h : Nat) (timeoutMs : Nat)
  | shellExecute (path : PyVal)
  | getUserDefaultConfigPathCall
  | initConfigPath (path : PyVal)
  | shellExecuteExCall (runas : Bool) (noclose : Bool)
  | getExitCode (h : Nat)
  | execQuery (q : String)
deriving DecidableEq, Repr

/-- Number of acquisitions of handle `h` recorded in a trace. -/
def opens (h : Nat) (tr : List Event) : Nat :=
  tr.countP fun e => e = Event.hOpen h

/-- Number of releases of handle `h` recorded in a trace. -/
def closes (h : Nat) (tr : List Event) : Nat :=
  tr.countP fun e => e = Event.hClose h

/-- The handle-release contract: every (non-null) handle acquired in
the trace is released exactly as many times as it was acquired. -/
def handlesBalanced (tr : List Event) : Prop :=
  ∀ h : Nat, h ≠ 0 → closes h tr = opens h tr

/-! ## `openUserConfigurationDirectory` -/

/-- Environment of `openUserConfigurationDirectory`:
`appArgsConfigPath` is `none` when reading `globalVars.appArgs.configPath`
raises `AttributeError` (the NVDA_slave case), and `some v` when the
attribute exists and holds `v` (possibly `None` or the empty string);
`getUserDefaultConfigPath` is what `config.getUserDefaultConfigPath()`
returns. -/
structure ConfigEnv where
  appArgsConfigPath : Option PyVal
  getUserDefaultConfigPath : PyVal
deriving DecidableEq, Repr

/-- Embedding of `openUserConfigurationDirectory`:
try `path = globalVars.appArgs.configPath`; on `AttributeError`,
`path = config.getUserDefaultConfigPath()`, and if `not path` raise
`ValueError("no user default config path")`, else
`config.initConfigPath(path)`; finally
`shellapi.ShellExecute(0, None, path, None, None, SW_SHOWNORMAL)`. -/
def openUserConfigurationDirectory (env : ConfigEnv) :
    Except PyErr Unit × List Event :=
  match env.appArgsConfigPath with
  | some path => (.ok (), [Event.shellExecute path])
  | none =>
    let path := env.getUserDefaultConfigPath
    if path.falsy then
      (.error (.valueError "no user default config path"),
        [Event.getUserDefaultConfigPathCall])
    else
      (.ok (),
        [Event.getUserDefaultConfigPathCall, Event.initConfigPath path,
          Event.shellExecute path])

/-! ## `hasUiAccess` -/

/-- Environment of `hasUiAccess`:
`openProcessToken` is `some h` when
`OpenProcessToken(GetCurrentProcess(), MAXIMUM_ALLOWED, byref(token))`
succeeds and writes handle `h` into `token`, and `none` when it fails
and writes nothing; `getTokenInformation t` is `some v` when
`GetTokenInformation(t, TokenUIAccess, byref(val), 4, ...)` writes the
DWORD `v` into `val`, and `none` when it fails and writes nothing.
Neither call's success/failure return value is inspected by the code. -/
structure TokenEnv where
  openProcessToken : Option Nat
  getTokenInformation : Nat → Option Nat

/-- The value held by `token` after the (unchecked) `OpenProcessToken`
call: the written handle on success, the zero-initialised
`ctypes.wintypes.HANDLE()` otherwise. -/
def acquiredToken (env : TokenEnv) : Nat :=
  match env.openProcessToken with
  | some h => h
  | none => 0

/-- Embedding of `hasUiAccess`: zero-initialise `token`, call
`OpenProcessToken` ignoring its result, then inside `try`:
zero-initialise `val` (a 4-byte DWORD), call `GetTokenInformation`
ignoring its result, return `bool(val.value)`; `finally`
`CloseHandle(token)`.  The function never raises. -/
def hasUiAccess (env : TokenEnv) : Except PyErr Bool × List Event :=
  let token := acquiredToken env
  let openEv : List Event :=
    match env.openProcessToken with
    | some h => [Event.hOpen h]
    | none => []
  let val : Nat :=
    match env.getTokenInformation token with
    | some v => v % 2 ^ 32
    | none => 0
  (.ok (decide (val ≠ 0)), openEv ++ [Event.hClose token])

/-! ## `forceTerminateProcess` and `terminateRunningNVDA` -/

/-- `winKernel` access-right constants used by the module. -/
def SYNCHRONIZE : Nat := 0x100000

/-- `PROCESS_TERMINATE` access right. -/
def PROCESS_TERMINATE : Nat := 0x1

/-- Outcome of `winKernel.waitForSingleObject`.
Modelled from the spec: `winKernel` is not under `src/`; per the spec's
contract the wait on a process handle either observes the process signal
termination (result `0`), times out, or the wrapper surfaces the native
failure as a raised OS-level error. -/
inductive WaitRes where
  | signaled
  | timedOut
  | waitError
deriving DecidableEq, Repr

/-- Environment of `terminateRunningNVDA` / `forceTerminateProcess`:
`openProcess access inherit pid` is the raw handle returned by
`winKernel.openProcess` (`0` on failure, never raising);
`terminateProcess` is the outcome of `winKernel.TerminateProcess` on the
opened handle (modelled from the spec: the wrapper is not under `src/`,
it either succeeds or raises an OS-level error);
`wait2000` / `wait4000` are the outcomes of the 2000 ms and 4000 ms
`winKernel.waitForSingleObject` calls;
`windowProcessID w` is the `(processID, threadID)` pair that
`winUser.getWindowThreadProcessID` yields for window `w`. -/
structure ProcEnv where
  openProcess : Nat → Bool → Nat → Nat
  terminateProcess : Except PyErr Unit
  wait2000 : WaitRes
  wait4000 : WaitRes
  windowProcessID : Nat → Nat × Nat

/-- Embedding of `forceTerminateProcess(processID)`:
`h = openProcess(PROCESS_TERMINATE | SYNCHRONIZE, False, processID)`;
then the line `if h == 0: ctypes.WinError()` — which only CONSTRUCTS the
error object and discards it, raising nothing — and then the `try` body
`TerminateProcess(h, 1); waitForSingleObject(h, 2000)` with
`finally: closeHandle(h)`. -/
def forceTerminateProcess (env : ProcEnv) (processID : Nat) :
    Except PyErr Unit × List Event :=
  let h := env.openProcess (PROCESS_TERMINATE ||| SYNCHRONIZE) false processID
  -- `if h == 0: ctypes.WinError()` : the constructed error is discarded
  let _discardedWinError : Option PyErr :=
    if h = 0 then some .winError else none
  let openEv : List Event := if h = 0 then [] else [Event.hOpen h]
  match env.terminateProcess with
  | .error e =>
    (.error e, openEv ++ [Event.terminateCall h 1, Event.hClose h])
  | .ok () =>
    match env.wait2000 with
    | .waitError =>
      (.error .winError,
        openEv ++ [Event.terminateCall h 1, Event.waitCall h 2000,
          Event.hClose h])
    | _ =>
      -- the wait result itself is not checked
      (.ok (),
        openEv ++ [Event.terminateCall h 1, Event.waitCall h 2000,
          Event.hClose h])

/-- Embedding of `terminateRunningNVDA(window)`:
resolve `(processID, threadID)`, `PostMessage(window, WM_QUIT, 0, 0)`,
`h = openProcess(SYNCHRONIZE, False, processID)`; if `not h` return (the
process is already dead); else `try` `res = waitForSingleObject(h, 4000)`
returning when `res == 0`, with `finally: closeHandle(h)`; if the wait
did not report the process signalled, `forceTerminateProcess(processID)`. -/
def terminateRunningNVDA (env : ProcEnv) (window : Nat) :
    Except PyErr Unit × List Event :=
  let processID := (env.windowProcessID window).1
  let h := env.openProcess SYNCHRONIZE false processID
  if h = 0 then
    -- The process is already dead.
    (.ok (), [Event.postQuit window])
  else
    match env.wait4000 with
    | .waitError =>
      (.error .winError,
        [Event.postQuit window, Event.hOpen h, Event.waitCall h 4000,
          Event.hClose h])
    | .signaled =>
      -- The process terminated within the timeout period.
      (.ok (),
        [Event.postQuit window, Event.hOpen h, Event.waitCall h 4000,
          Event.hClose h])
    | .timedOut =>
      -- The process is refusing to exit gracefully, so kill it forcefully.
      let forced := forceTerminateProcess env processID
      (forced.1,
        [Event.postQuit window, Event.hOpen h, Event.waitCall h 4000,
          Event.hClose h] ++ forced.2)

/-! ## `execElevated` -/

/-- Environment of `execElevated`:
`isUserAnAdmin` is the result of `ctypes.windll.shell32.IsUserAnAdmin()`;
`shellExecuteEx` is the outcome of `shellapi.ShellExecuteEx(sei)`
(modelled from the spec: the wrapper is not under `src/`, a failed
launch — e.g. a declined elevation prompt — propagates as a raised
OS-level error), yielding on success the process handle written into
`sei.hProcess` when `SEE_MASK_NOCLOSEPROCESS` was requested;
`msgWaits` is the successive results of
`MsgWaitForMultipleObjects(1, [h], False, -1, 255)` (the loop body runs
while the result is `1`);
`getExitCodeProcess` is the outcome of
`winKernel.GetExitCodeProcess(sei.hProcess)`. -/
structure ExecEnv where
  isUserAnAdmin : Bool
  shellExecuteEx : Except PyErr Nat
  msgWaits : List Nat
  getExitCodeProcess : Except PyErr Nat

/-- The message pump of `execElevated`'s wait path: keep calling
`MsgWaitForMultipleObjects` and draining the message queue while it
returns `1` (new message); stops at the first other result (`0` = the
process handle is signaled). -/
def msgWaitLoop : List Nat → Nat
  | [] => 0
  | r :: rest => if r = 1 then msgWaitLoop rest else r

/-- Embedding of `execElevated(path, params, wait, handleAlreadyElevated)`:
build `sei` with `lpVerb = "runas"` unless `handleAlreadyElevated` and
`IsUserAnAdmin()`, set `fMask = SEE_MASK_NOCLOSEPROCESS` when `wait`;
`ShellExecuteEx(sei)`; when `wait`, `try` pump messages until the child
handle is signaled and `return GetExitCodeProcess(sei.hProcess)`, with
`finally: closeHandle(sei.hProcess)`; when not `wait`, fall off the end
(return `None`). -/
def execElevated (env : ExecEnv) ( _path : String)
    ( _params : Option (List String)) (wait : Bool)
    (handleAlreadyElevated : Bool) :
    Except PyErr (Option Nat) × List Event :=
  let runas := !handleAlreadyElevated || !env.isUserAnAdmin
  let noclose := wait
  match env.shellExecuteEx with
  | .error e => (.error e, [Event.shellExecuteExCall runas noclose])
  | .ok hProc =>
    if wait then
      let ev0 := [Event.shellExecuteExCall runas noclose, Event.hOpen hProc]
      let _signalRes := msgWaitLoop env.msgWaits
      match env.getExitCodeProcess with
      | .ok code =>
        (.ok (some code),
          ev0 ++ [Event.getExitCode hProc, Event.hClose hProc])
      | .error e =>
        (.error e, ev0 ++ [Event.getExitCode hProc, Event.hClose hProc])
    else
      (.ok none, [Event.shellExecuteExCall runas noclose])

/-! ## `getRunningProcessInstances` -/

/-- The escaping applied before embedding the name in the WMI query:
`name.replace("\\", r"\\")`, i.e. every backslash is doubled and every
other character is kept unchanged. -/
def escapeBackslashes (s : String) : String :=
  ⟨s.data.flatMap fun c => if c = '\\' then ['\\', '\\'] else [c]⟩

/-- The WQL query string built by `getRunningProcessInstances`:
`f"SELECT ProcessId FROM Win32_Process WHERE ExecutablePath = '{escapedName}'"`. -/
def processQuery (name : String) : String :=
  "SELECT ProcessId FROM Win32_Process WHERE ExecutablePath = '"
    ++ escapeBackslashes name ++ "'"

/-- Environment of `getRunningProcessInstances`: `execQuery q` is the
outcome of submitting `q` to WMI and enumerating the result
(`wmi.ExecQuery(q)`, `processes.Count`, `processes.ItemIndex(i)`): the
ordered rows of `ProcessId` values, or the `COMError` an invalid query
reveals when the count is fetched; nothing is caught locally. -/
structure WmiEnv where
  execQuery : String → Except PyErr (List Nat)

/-- Embedding of `getRunningProcessInstances(name)`: escape the
backslashes, submit the query, and return the tuple
`(processes.ItemIndex(i).Properties_['ProcessId'].Value for i in
range(count))` — one element per result row, in enumeration order; a
`COMError` from the query propagates to the caller. -/
def getRunningProcessInstances (env : WmiEnv) (name : String) :
    Except PyErr (List Nat) × List Event :=
  let q := processQuery name
  match env.execQuery q with
  | .error e => (.error e, [Event.execQuery q])
  | .ok rows => (.ok rows, [Event.execQuery q])

/-! ## Concrete environments used to evaluate the functions -/

/-- A `ProcEnv` in which every `openProcess` call fails (returns a null
handle) and every other native call succeeds. -/
def nullOpenProcEnv : ProcEnv where
  openProcess := fun _ _ _ => 0
  terminateProcess := .ok ()
  wait2000 := .signaled
  wait4000 := .signaled
  windowProcessID := fun _ => (0, 0)

/-- A `ProcEnv` for a process that opens as handle `9` and exits within
the graceful 4000 ms wait. -/
def gracefulExitProcEnv : ProcEnv where
  openProcess := fun _ _ _ => 9
  terminateProcess := .ok ()
  wait2000 := .signaled
  wait4000 := .signaled
  windowProcessID := fun _ => (5, 6)

/-- A `ConfigEnv` in which the argument context has no `configPath`
attribute and the configuration subsystem yields no default path. -/
def noPathConfigEnv : ConfigEnv where
  appArgsConfigPath := none
  getUserDefaultConfigPath := .pyNone

/-- A `ConfigEnv` in which the `configPath` attribute exists but holds
the empty string. -/
def emptyAttrConfigEnv : ConfigEnv where
  appArgsConfigPath := some (.str "")
  getUserDefaultConfigPath := .str "C:\\cfg"

/-- A `TokenEnv` in which `OpenProcessToken` fails and
`GetTokenInformation` writes nothing on any handle. -/
def tokenOpenFailEnv : TokenEnv where
  openProcessToken := none
  getTokenInformation := fun _ => none

/-- A `TokenEnv` in which `OpenProcessToken` yields handle `42` but the
`GetTokenInformation` query fails and writes nothing. -/
def tokenInfoFailEnv : TokenEnv where
  openProcessToken := some 42
  getTokenInformation := fun _ => none

/-! # Theorems -/

/-- C1: the claim says `forceTerminateProcess` raises the last OS error
when the open returns a null handle.  It does not: the source line
`if h == 0: ctypes.WinError()` constructs the error object without
`raise`, so execution falls through to `TerminateProcess` on the null
handle and — when the native calls return normally — the function
returns without error. -/
theorem forceTerminateProcess_nullHandle_no_raise :
    forceTerminateProcess nullOpenProcEnv 5 =
      (.ok (),
        [Event.terminateCall 0 1, Event.waitCall 0 2000, Event.hClose 0]) :=
  rfl

/-- C2 counterexample: with no `configPath` attribute and no default
path, `openUserConfigurationDirectory` raises
`ValueError("no user default config path")` — not the
`ConfigurationError` the claim states. -/
theorem openUserConfigurationDirectory_not_configurationError :
    (openUserConfigurationDirectory noPathConfigEnv).1 =
        .error (.valueError "no user default config path") ∧
      (openUserConfigurationDirectory noPathConfigEnv).1 ≠
        .error (.configurationError "no user default config path") := by
  constructor
  · rfl
  · intro hco
    simp [openUserConfigurationDirectory, noPathConfigEnv, PyVal.falsy]
      at hco

/-- C2 (amended): when no path is known in the argument context and the
configuration subsystem returns a falsy default path, the function
raises `ValueError("no user default config path")` to its caller,
without initialising the configuration subsystem or invoking the
shell. -/
theorem openUserConfigurationDirectory_noDefault_valueError
    (env : ConfigEnv) (hattr : env.appArgsConfigPath = none)
    (hfalsy : env.getUserDefaultConfigPath.falsy = true) :
    openUserConfigurationDirectory env =
      (.error (.valueError "no user default config path"),
        [Event.getUserDefaultConfigPathCall]) := by
  simp [openUserConfigurationDirectory, hattr, hfalsy]

/-- C2 witness: the amended theorem at the concrete environment. -/
theorem openUserConfigurationDirectory_noDefault_valueError_witness :
    noPathConfigEnv.appArgsConfigPath = none ∧
      noPathConfigEnv.getUserDefaultConfigPath.falsy = true ∧
      openUserConfigurationDirectory noPathConfigEnv =
        (.error (.valueError "no user default config path"),
          [Event.getUserDefaultConfigPathCall]) :=
  ⟨rfl, rfl,
    openUserConfigurationDirectory_noDefault_valueError noPathConfigEnv
      rfl rfl⟩

/-- C3 counterexample: when opening the current process's token fails,
`hasUiAccess` neither raises nor propagates anything: it returns the
silently defaulted boolean `False`. -/
theorem hasUiAccess_openFail_silent_false :
    hasUiAccess tokenOpenFailEnv = (.ok false, [Event.hClose 0]) :=
  rfl

/-- C3 (amended): failure to open the token does not propagate — the
call's result is ignored.  `hasUiAccess` never raises for any outcome
of the native calls, and when the open fails (so the token stays the
zero-initialised null handle) and the information query on that null
handle writes nothing, it returns the silently defaulted `False`. -/
theorem hasUiAccess_openFail_no_raise (env : TokenEnv)
    (hopen : env.openProcessToken = none)
    (hinfo : env.getTokenInformation 0 = none) :
    (∃ b, (hasUiAccess env).1 = .ok b) ∧
      hasUiAccess env = (.ok false, [Event.hClose 0]) := by
  refine ⟨⟨false, ?_⟩, ?_⟩ <;>
    simp [hasUiAccess, acquiredToken, hopen, hinfo]

/-- C3 witness: the amended theorem at the concrete environment. -/
theorem hasUiAccess_openFail_no_raise_witness :
    tokenOpenFailEnv.openProcessToken = none ∧
      tokenOpenFailEnv.getTokenInformation 0 = none ∧
      ((∃ b, (hasUiAccess tokenOpenFailEnv).1 = .ok b) ∧
        hasUiAccess tokenOpenFailEnv = (.ok false, [Event.hClose 0])) :=
  ⟨rfl, rfl, hasUiAccess_openFail_no_raise tokenOpenFailEnv rfl rfl⟩

/-- C8: when the token-information query fails and writes nothing into
the 4-byte output value, `hasUiAccess` does not raise: it returns
`False`, the zero-initialised output interpreted as a boolean, the
query's result value never being checked. -/
theorem hasUiAccess_queryFail_returns_false (env : TokenEnv)
    (hinfo : env.getTokenInformation (acquiredToken env) = none) :
    (hasUiAccess env).1 = .ok false := by
  simp [hasUiAccess, hinfo]

/-- C8 witness: the theorem at a concrete environment whose token opens
as handle 42 but whose information query fails. -/
theorem hasUiAccess_queryFail_returns_false_witness :
    tokenInfoFailEnv.getTokenInformation (acquiredToken tokenInfoFailEnv) =
        none ∧
      (hasUiAccess tokenInfoFailEnv).1 = .ok false :=
  ⟨rfl, hasUiAccess_queryFail_returns_false tokenInfoFailEnv rfl⟩

/-- C10: the fallback to the configuration subsystem is taken only on
an `AttributeError`; whenever the `configPath` attribute exists — even
holding `None` or the empty string — its value goes straight to the
shell-open call, and neither `getUserDefaultConfigPath` nor
`initConfigPath` is invoked (the trace is exactly the shell call). -/
theorem openUserConfigurationDirectory_attr_direct (env : ConfigEnv)
    (v : PyVal) (hattr : env.appArgsConfigPath = some v) :
    openUserConfigurationDirectory env = (.ok (), [Event.shellExecute v]) := by
  simp [openUserConfigurationDirectory, hattr]

/-- C10 witness: the attribute holding the (falsy) empty string is
passed to the shell directly; no fallback occurs. -/
theorem openUserConfigurationDirectory_attr_direct_witness :
    emptyAttrConfigEnv.appArgsConfigPath = some (.str "") ∧
      openUserConfigurationDirectory emptyAttrConfigEnv =
        (.ok (), [Event.shellExecute (.str "")]) :=
  ⟨rfl,
    openUserConfigurationDirectory_attr_direct emptyAttrConfigEnv
      (.str "") rfl⟩

/-- C4: `terminateRunningNVDA` always posts the quit message; if no
synchronization handle to the owning process can be opened it returns
without error and without any termination call (success by absence); if
the process signals within the 4000 ms wait it returns without invoking
`forceTerminateProcess`; if the wait times out it performs exactly the
effects of `forceTerminateProcess` on the owning process ID; and a
termination call occurs in its trace only if the handle opened and the
wait timed out. -/
theorem terminateRunningNVDA_spec (env : ProcEnv) (window pid h : Nat)
    (hpid : pid = (env.windowProcessID window).1)
    (hh : h = env.openProcess SYNCHRONIZE false pid) :
    Event.postQuit window ∈ (terminateRunningNVDA env window).2 ∧
    (h = 0 →
      terminateRunningNVDA env window = (.ok (), [Event.postQuit window])) ∧
    (h ≠ 0 → env.wait4000 = .signaled →
      terminateRunningNVDA env window =
        (.ok (),
          [Event.postQuit window, Event.hOpen h, Event.waitCall h 4000,
            Event.hClose h])) ∧
    (h ≠ 0 → env.wait4000 = .timedOut →
      terminateRunningNVDA env window =
        ((forceTerminateProcess env pid).1,
          [Event.postQuit window, Event.hOpen h, Event.waitCall h 4000,
            Event.hClose h] ++ (forceTerminateProcess env pid).2)) ∧
    ((∃ hh c, Event.terminateCall hh c ∈ (terminateRunningNVDA env window).2) →
      h ≠ 0 ∧ env.wait4000 = .timedOut) := by
  subst hpid
  subst hh
  unfold terminateRunningNVDA
  by_cases h0 : env.openProcess SYNCHRONIZE false
      (env.windowProcessID window).1 = 0
  · simp [h0]
  · cases hw : env.wait4000 <;> simp [h0, hw]

/-- C4 witness: on the environment whose process opens as handle `9`
and exits within the graceful wait, the call returns without error and
without any forced termination. -/
theorem terminateRunningNVDA_spec_witness :
    terminateRunningNVDA gracefulExitProcEnv 7 =
      (.ok (),
        [Event.postQuit 7, Event.hOpen 9, Event.waitCall 9 4000,
          Event.hClose 9]) :=
  (terminateRunningNVDA_spec gracefulExitProcEnv 7 5 9 rfl rfl).2.2.1
    (by decide) rfl

/-- An `ExecEnv` whose launch yields process handle `42`, whose message
pump sees two message wake-ups before the child signals, and whose
child exits with code `7`. -/
def exit7ExecEnv : ExecEnv where
  isUserAnAdmin := false
  shellExecuteEx := .ok 42
  msgWaits := [1, 1, 0]
  getExitCodeProcess := .ok 7

/-- C5: after a successful launch, `execElevated` with `wait = False`
returns no result; with `wait = True` it returns the child's exit code
once the child signals (and propagates an error from the exit-code
fetch), and the child process handle is closed exactly once on both of
those exit paths. -/
theorem execElevated_spec (env : ExecEnv) (path : String)
    (params : Option (List String)) (hae : Bool) (h : Nat)
    (hlaunch : env.shellExecuteEx = .ok h) :
    (execElevated env path params false hae).1 = .ok none ∧
    (∀ c, env.getExitCodeProcess = .ok c →
      (execElevated env path params true hae).1 = .ok (some c)) ∧
    (∀ e, env.getExitCodeProcess = .error e →
      (execElevated env path params true hae).1 = .error e) ∧
    closes h (execElevated env path params true hae).2 = 1 := by
  refine ⟨?_, ?_, ?_, ?_⟩
  · simp [execElevated, hlaunch]
  · intro c hc
    simp [execElevated, hlaunch, hc]
  · intro e he
    simp [execElevated, hlaunch, he]
  · cases hcode : env.getExitCodeProcess <;>
      simp [execElevated, hlaunch, hcode, closes, List.countP_cons,
        List.countP_append]

/-- C5 witness: a child that exits with code `7` yields return value
`7` on the wait path, and nothing on the no-wait path. -/
theorem execElevated_spec_witness :
    exit7ExecEnv.shellExecuteEx = .ok 42 ∧
      (execElevated exit7ExecEnv "nvda_slave.exe" none false false).1 =
        .ok none ∧
      (execElevated exit7ExecEnv "nvda_slave.exe" none true false).1 =
        .ok (some 7) :=
  ⟨rfl,
    (execElevated_spec exit7ExecEnv "nvda_slave.exe" none false 42 rfl).1,
    (execElevated_spec exit7ExecEnv "nvda_slave.exe" none false 42
      rfl).2.1 7 rfl⟩

/-- Doubling backslashes doubles the backslash count of a character
list and leaves nothing else behind. -/
theorem escList_count_bs (l : List Char) :
    (l.flatMap fun c => if c = '\\' then ['\\', '\\'] else [c]).count '\\' =
      2 * l.count '\\' := by
  induction l with
  | nil => rfl
  | cons c l ih =>
    by_cases hc : c = '\\' <;>
      simp [hc, List.count_cons, ih, Nat.mul_add]

/-- Unfolding `escapeBackslashes` to its character-list action. -/
theorem escapeBackslashes_data (s : String) :
    (escapeBackslashes s).data =
      s.data.flatMap fun c => if c = '\\' then ['\\', '\\'] else [c] :=
  rfl

/-- Doubling backslashes preserves the count of every other
character. -/
theorem escList_count_other (a : Char) (ha : a ≠ '\\') (l : List Char) :
    (l.flatMap fun c => if c = '\\' then ['\\', '\\'] else [c]).count a =
      l.count a := by
  induction l with
  | nil => rfl
  | cons c l ih =>
    by_cases hc : c = '\\'
    · simp [hc, List.count_cons, ih, Ne.symm ha]
    · simp [hc, List.count_cons, ih]

/-- Doubling backslashes grows the length by exactly the number of
backslashes. -/
theorem escList_length (l : List Char) :
    (l.flatMap fun c => if c = '\\' then ['\\', '\\'] else [c]).length =
      l.length + l.count '\\' := by
  induction l with
  | nil => rfl
  | cons c l ih =>
    by_cases hc : c = '\\' <;> simp [hc, List.count_cons, ih] <;> omega

/-- C9: the query built by `getRunningProcessInstances` is exactly the
fixed template around the escaped name; escaping doubles each backslash
(count and length accounting) and transforms no other character; in
particular a single quote in the name is embedded verbatim, so the
query carries `2 + (quotes in the name)` quote characters — a quote in
the name terminates the query's string literal early. -/
theorem processQuery_template (name : String) :
    processQuery name =
        "SELECT ProcessId FROM Win32_Process WHERE ExecutablePath = '"
          ++ escapeBackslashes name ++ "'" ∧
      (escapeBackslashes name).data.count '\\' =
        2 * name.data.count '\\' ∧
      (escapeBackslashes name).data.length =
        name.data.length + name.data.count '\\' ∧
      (∀ c, c ≠ '\\' →
        (escapeBackslashes name).data.count c = name.data.count c) ∧
      (processQuery name).data.count '\'' = 2 + name.data.count '\'' := by
  refine ⟨rfl, escList_count_bs name.data, escList_length name.data,
    fun c hc => escList_count_other c hc name.data, ?_⟩
  show (("SELECT ProcessId FROM Win32_Process WHERE ExecutablePath = '"
      ++ escapeBackslashes name) ++ "'").data.count '\'' = _
  rw [String.data_append, String.data_append, List.count_append,
    List.count_append, escapeBackslashes_data,
    escList_count_other '\'' (by decide) name.data]
  have h1 : List.count '\''
      "SELECT ProcessId FROM Win32_Process WHERE ExecutablePath = '".data
      = 1 := by decide
  have h2 : List.count '\'' "'".data = 1 := by decide
  omega

/-- C9 witness: the per-character conjunct at a concrete name with a
quote and a backslash, hypothesis discharged at the character `e`. -/
theorem processQuery_template_witness :
    ('e' ≠ '\\') ∧
      (escapeBackslashes "C:\\nvda's.exe").data.count 'e' =
        ("C:\\nvda's.exe" : String).data.count 'e' :=
  ⟨by decide,
    (processQuery_template "C:\\nvda's.exe").2.2.2.1 'e' (by decide)⟩

/-- C6: `getRunningProcessInstances` submits exactly the query built
from the backslash-escaped name (each backslash doubled); when the
query yields rows it returns them in order — the result's length equals
the row count, zero rows giving the empty sequence, not an error — and
a failure of the query is not caught: the error propagates unchanged to
the caller. -/
theorem getRunningProcessInstances_spec (env : WmiEnv) (name : String) :
    (getRunningProcessInstances env name).2 =
        [Event.execQuery (processQuery name)] ∧
      (processQuery name).data.count '\\' = 2 * name.data.count '\\' ∧
      (∀ rows, env.execQuery (processQuery name) = .ok rows →
        (getRunningProcessInstances env name).1 = .ok rows ∧
          ∀ l, (getRunningProcessInstances env name).1 = .ok l →
            l.length = rows.length) ∧
      (env.execQuery (processQuery name) = .ok [] →
        (getRunningProcessInstances env name).1 = .ok []) ∧
      (∀ e, env.execQuery (processQuery name) = .error e →
        (getRunningProcessInstances env name).1 = .error e) := by
  refine ⟨?_, ?_, ?_, ?_, ?_⟩
  · cases hq : env.execQuery (processQuery name) <;>
      simp [getRunningProcessInstances, hq]
  · show (("SELECT ProcessId FROM Win32_Process WHERE ExecutablePath = '"
        ++ escapeBackslashes name) ++ "'").data.count '\\' = _
    rw [String.data_append, String.data_append, List.count_append,
      List.count_append, escapeBackslashes_data, escList_count_bs name.data]
    have h1 : List.count '\\'
        "SELECT ProcessId FROM Win32_Process WHERE ExecutablePath = '".data
        = 0 := by decide
    have h2 : List.count '\\' "'".data = 0 := by decide
    omega
  · intro rows hq
    refine ⟨by simp [getRunningProcessInstances, hq], fun l hl => ?_⟩
    simp [getRunningProcessInstances, hq] at hl
    simp [hl]
  · intro hq
    simp [getRunningProcessInstances, hq]
  · intro e hq
    simp [getRunningProcessInstances, hq]

/-- A `WmiEnv` answering the escaped query for `C:\app\foo.exe` with
two rows and failing on every other query. -/
def fooWmiEnv : WmiEnv where
  execQuery := fun q =>
    if q = processQuery "C:\\app\\foo.exe" then .ok [4242, 99]
    else .error .comError

/-- C6 witness: the spec's own example — the backslashes of
`C:\app\foo.exe` are escaped before querying and the two matching rows
come back in order. -/
theorem getRunningProcessInstances_spec_witness :
    fooWmiEnv.execQuery (processQuery "C:\\app\\foo.exe") =
        .ok [4242, 99] ∧
      (getRunningProcessInstances fooWmiEnv "C:\\app\\foo.exe").1 =
        .ok [4242, 99] :=
  ⟨by simp [fooWmiEnv],
    ((getRunningProcessInstances_spec fooWmiEnv "C:\\app\\foo.exe").2.2.1
      [4242, 99] (by simp [fooWmiEnv])).1⟩

/-- The token handle of `hasUiAccess` is released exactly as often as
it is acquired, whatever the native calls do. -/
theorem hasUiAccess_balanced (env : TokenEnv) :
    handlesBalanced (hasUiAccess env).2 := by
  intro h hne
  cases hopen : env.openProcessToken with
  | none =>
    simp [hasUiAccess, acquiredToken, hopen, opens, closes, Ne.symm hne]
  | some a =>
    by_cases ha : a = h <;>
      simp [hasUiAccess, acquiredToken, hopen, opens, closes, ha]

/-- The child process handle of `execElevated` is released exactly as
often as it is acquired, on success and failure paths alike. -/
theorem execElevated_balanced (env : ExecEnv) (path : String)
    (params : Option (List String)) (wait hae : Bool) :
    handlesBalanced (execElevated env path params wait hae).2 := by
  intro h hne
  cases hlaunch : env.shellExecuteEx with
  | error e => simp [execElevated, hlaunch, opens, closes]
  | ok a =>
    cases wait with
    | false => simp [execElevated, hlaunch, opens, closes]
    | true =>
      cases hcode : env.getExitCodeProcess <;>
        by_cases ha : a = h <;>
          simp [execElevated, hlaunch, hcode, opens, closes, ha]

/-- The process handle of `forceTerminateProcess` is released exactly
as often as it is acquired, on every path — including a failing
`TerminateProcess` or wait. -/
theorem forceTerminateProcess_balanced (env : ProcEnv) (pid : Nat) :
    handlesBalanced (forceTerminateProcess env pid).2 := by
  intro h hne
  by_cases h0 :
      env.openProcess (PROCESS_TERMINATE ||| SYNCHRONIZE) false pid = 0
  · cases ht : env.terminateProcess with
    | error e =>
      simp [forceTerminateProcess, h0, ht, opens, closes, Ne.symm hne]
    | ok u =>
      cases hw : env.wait2000 <;>
        simp [forceTerminateProcess, h0, ht, hw, opens, closes, Ne.symm hne]
  · cases ht : env.terminateProcess with
    | error e =>
      by_cases ha :
          env.openProcess (PROCESS_TERMINATE ||| SYNCHRONIZE) false pid = h <;>
        simp [forceTerminateProcess, h0, ht, opens, closes, ha, hne]
    | ok u =>
      cases hw : env.wait2000 <;>
        by_cases ha :
            env.openProcess (PROCESS_TERMINATE ||| SYNCHRONIZE) false pid
              = h <;>
          simp [forceTerminateProcess, h0, ht, hw, opens, closes, ha, hne]

/-- The synchronization handle of `terminateRunningNVDA` — and, on the
escalation branch, the separately acquired handle of the delegated
`forceTerminateProcess` — are released exactly as often as they are
acquired. -/
theorem terminateRunningNVDA_balanced (env : ProcEnv) (window : Nat) :
    handlesBalanced (terminateRunningNVDA env window).2 := by
  intro h hne
  by_cases h0 :
      env.openProcess SYNCHRONIZE false (env.windowProcessID window).1 = 0
  · simp [terminateRunningNVDA, h0, opens, closes]
  · cases hw : env.wait4000 with
    | signaled =>
      by_cases ha :
          env.openProcess SYNCHRONIZE false (env.windowProcessID window).1
            = h <;>
        simp [terminateRunningNVDA, h0, hw, opens, closes, ha, hne]
    | waitError =>
      by_cases ha :
          env.openProcess SYNCHRONIZE false (env.windowProcessID window).1
            = h <;>
        simp [terminateRunningNVDA, h0, hw, opens, closes, ha, hne]
    | timedOut =>
      have hf :=
        forceTerminateProcess_balanced env (env.windowProcessID window).1
          h hne
      by_cases ha :
          env.openProcess SYNCHRONIZE false (env.windowProcessID window).1
            = h <;>
        simp [terminateRunningNVDA, h0, hw, opens, closes, ha, hne,
          List.countP_append] at hf ⊢ <;>
        omega

/-- C7: every OS handle opened by `hasUiAccess` (the token handle),
`execElevated`'s wait path (the child process handle),
`terminateRunningNVDA` and `forceTerminateProcess` (the process
handles) is closed exactly once on every control-flow exit — normal
return, early return, and raised error alike. -/
theorem systemUtils_handles_closed_once (tenv : TokenEnv) (eenv : ExecEnv)
    (penv : ProcEnv) (path : String) (params : Option (List String))
    (wait hae : Bool) (window pid : Nat) :
    handlesBalanced (hasUiAccess tenv).2 ∧
      handlesBalanced (execElevated eenv path params wait hae).2 ∧
      handlesBalanced (terminateRunningNVDA penv window).2 ∧
      handlesBalanced (forceTerminateProcess penv pid).2 :=
  ⟨hasUiAccess_balanced tenv,
    execElevated_balanced eenv path params wait hae,
    terminateRunningNVDA_balanced penv window,
    forceTerminateProcess_balanced penv pid⟩

/-- C7 witness: the balance at handle `9` of the graceful-exit
termination trace. -/
theorem systemUtils_handles_closed_once_witness :
    closes 9 (terminateRunningNVDA gracefulExitProcEnv 7).2 =
      opens 9 (terminateRunningNVDA gracefulExitProcEnv 7).2 :=
  (systemUtils_handles_closed_once tokenOpenFailEnv exit7ExecEnv
    gracefulExitProcEnv "nvda.exe" none true false 7 5).2.2.1 9 (by decide)

end SystemUtils
